import Mathlib

/-!
Verification of the observation-planning notebook (`plot_obs-planning.ipynb`).

The notebook computes altitude/azimuth trajectories of M33, the Sun and the
Moon for an observer at Bear Mountain (lat 41.3°, lon −74°, height 390 m) and
plots airmass and altitude curves with day/twilight/night shading.  Pure parts
of the computation (the time grid, the shading thresholds, the civil-to-UTC
conversion, the airmass formula) are embedded directly; the parts delegated to
the external astronomy library (the equatorial-to-horizontal transform, the
location validation, the error taxonomy) are modelled from the specification
and marked as such in their doc comments.

Times are measured in hours since 2012-07-12 00:00 local civil time (EDT),
angles in degrees.  Rationals stand for the exact numeric values the notebook
manipulates; the trigonometric airmass and horizon-transform formulas live
over the reals.
-/

/-- Classification of a time sample by Sun altitude, read off the two
`fill_between` shading calls of the notebook: the night (black) region is
shaded where `sun alt < -18 deg`, the sun-below-horizon (grey) region where
`sun alt < -0 deg`, and everything else is daylight. -/
inductive SkyClass where
  | daylight
  | twilight
  | night
deriving DecidableEq

/-- Sample classification by Sun altitude (degrees), from the notebook's
shading conditions `alt < -18*u.deg` (black, night) and `alt < -0*u.deg`
(grey, twilight); samples in neither region are daylight. -/
def classify (alt : ℚ) : SkyClass :=
  if alt < -18 then SkyClass.night
  else if alt < -0 then SkyClass.twilight
  else SkyClass.daylight

/-- The notebook's night-shading condition `sunaltazs.alt < -18*u.deg`. -/
def nightShade (alt : ℚ) : Bool := decide (alt < -18)

/-- The notebook's sun-below-horizon shading condition
`sunaltazs.alt < -0*u.deg`. -/
def duskShade (alt : ℚ) : Bool := decide (alt < -0)

/-- `np.linspace a b n`: `n` evenly spaced samples from `a` to `b`, both
endpoints included when `n ≥ 2`; `[a]` when `n = 1`, `[]` when `n = 0`. -/
def linspace (a b : ℚ) (n : ℕ) : List ℚ :=
  if n = 0 then []
  else if n = 1 then [a]
  else (List.range n).map (fun (i : ℕ) => a + (b - a) * (i : ℚ) / ((n : ℚ) - 1))

/-- The notebook's time grids, e.g. `midnight + np.linspace(-2, 10, 100)*u.hour`:
the base time plus a linspace of hour offsets. -/
def timeGrid (base a b : ℚ) (n : ℕ) : List ℚ :=
  (linspace a b n).map (fun x => base + x)

/-- The fixed civil-time offset of the notebook: `utcoffset = -4*u.hour`. -/
def utcoffset : ℚ := -4

/-- Conversion of a local civil instant to the standard (UTC-like) instant, as
in `time = Time("2012-7-12 23:00:00") - utcoffset`. -/
def toStandard (t u : ℚ) : ℚ := t - u

/-- Conversion of a whole time series with one fixed offset. -/
def seriesToStandard (ts : List ℚ) (u : ℚ) : List ℚ :=
  ts.map (fun t => toStandard t u)

/-- `midnight = Time("2012-7-13 00:00:00") - utcoffset`: local midnight of
July 13 (24 hours after the epoch) converted to the standard scale. -/
def midnight : ℚ := toStandard 24 utcoffset

/-- Error taxonomy of the specification. -/
inductive ObsError where
  | resolutionError
  | invalidLocationError
  | networkError
  | computationError
deriving DecidableEq

/-- A resolved celestial coordinate pair (right ascension, declination). -/
structure SkyPosition where
  ra : ℚ
  dec : ℚ
deriving DecidableEq

/-- Geodetic observer location, as built by `EarthLocation(lat, lon, height)`. -/
structure ObserverLocation where
  lat : ℚ
  lon : ℚ
  height : ℚ
deriving DecidableEq

/-- Modelled from the spec: the Observer Frame Builder.  The validation logic
lives in the external library (`EarthLocation`), not in the repository; the
spec's contract is latitude in [-90, 90] and longitude in [-180, 180], with
`InvalidLocationError` on out-of-range values and no other failure mode. -/
def buildObserver (lat lon height : ℚ) : Except ObsError ObserverLocation :=
  if lat < -90 ∨ 90 < lat then Except.error ObsError.invalidLocationError
  else if lon < -180 ∨ 180 < lon then Except.error ObsError.invalidLocationError
  else Except.ok { lat := lat, lon := lon, height := height }

/-- Degrees to radians. -/
noncomputable def radOfDeg (d : ℝ) : ℝ := d * Real.pi / 180

/-- Radians to degrees. -/
noncomputable def degOfRad (r : ℝ) : ℝ := r * 180 / Real.pi

/-- Zenith angle (radians) of an altitude given in degrees: `90° − alt`. -/
noncomputable def zenithAngle (alt : ℝ) : ℝ := radOfDeg (90 - alt)

/-- Airmass as computed by the notebook's `m33altazs_July13night.secz`: the
secant of the zenith angle, `1 / cos(90° − alt)`, applied at every altitude
with no special casing. -/
noncomputable def secz (alt : ℝ) : ℝ := 1 / Real.cos (zenithAngle alt)

/-- Altitude/azimuth pair, in degrees. -/
structure HorizonCoordinate where
  alt : ℝ
  az : ℝ

/-- Wrap an angle in degrees into the interval `[0, 360)`. -/
noncomputable def wrap360 (x : ℝ) : ℝ := x - 360 * (⌊x / 360⌋ : ℝ)

/-- Modelled from the spec: the Horizon Transform Engine (`transform_to(AltAz)`
in the external library).  Closed-form equatorial-to-horizontal transform:
with hour angle `H = lst − ra`, the altitude is
`arcsin (sin δ sin φ + cos δ cos φ cos H)` and the azimuth is the polar angle
of `(cos H sin φ − tan δ cos φ, sin H)`, wrapped into `[0, 360)`.  All inputs
and outputs in degrees. -/
noncomputable def horizonTransform (lat dec lst ra : ℝ) : HorizonCoordinate :=
  let H := radOfDeg (lst - ra)
  let φ := radOfDeg lat
  let δ := radOfDeg dec
  let sinAlt := Real.sin δ * Real.sin φ + Real.cos δ * Real.cos φ * Real.cos H
  let azRad := Complex.arg ⟨Real.cos H * Real.sin φ - Real.tan δ * Real.cos φ, Real.sin H⟩
  { alt := degOfRad (Real.arcsin sinAlt), az := wrap360 (degOfRad azRad) }

/-- Re-wrapping the azimuth representation of a horizon coordinate. -/
noncomputable def wrapAzimuth (c : HorizonCoordinate) : HorizonCoordinate :=
  { alt := c.alt, az := wrap360 c.az }

/-- One time sample of a horizon-coordinate series: the time it was computed
at, and the computed coordinate. -/
structure Sample where
  time : ℚ
  coord : HorizonCoordinate

/-- The noon-to-noon time grid of the notebook:
`times_July12_to_13 = midnight + np.linspace(-12, 12, 1000)*u.hour`. -/
def times_July12_to_13 : List ℚ := timeGrid midnight (-12) 12 1000

/-- A horizon-coordinate series: the body's (ra, dec) position evaluated at
each time, then transformed in the frame of the given latitude, with the
local sidereal time a function of the time sample. -/
noncomputable def transformSeries (body : ℚ → ℝ × ℝ) (lat : ℝ) (lst : ℚ → ℝ)
    (ts : List ℚ) : List Sample :=
  ts.map (fun t => { time := t, coord := horizonTransform lat (body t).2 (lst t) (body t).1 })

/-- `sunaltazs_July12_to_13 = get_sun(times).transform_to(frame_July12_to_13)`:
the Sun's ephemeris position at each sample of the noon-to-noon grid,
transformed in the Bear Mountain frame. -/
noncomputable def sunaltazs_July12_to_13 (sunPos : ℚ → ℝ × ℝ) (lst : ℚ → ℝ) : List Sample :=
  transformSeries sunPos 41.3 lst times_July12_to_13

/-- `moonaltazs_July12_to_13 = get_body("moon", times).transform_to(frame)`:
the Moon's ephemeris position at each sample of the same grid, same frame. -/
noncomputable def moonaltazs_July12_to_13 (moonPos : ℚ → ℝ × ℝ) (lst : ℚ → ℝ) : List Sample :=
  transformSeries moonPos 41.3 lst times_July12_to_13

/-- `m33altazs_July12_to_13 = m33.transform_to(frame_July12_to_13)`: the fixed
M33 coordinate transformed at each sample of the same grid, same frame. -/
noncomputable def m33altazs_July12_to_13 (m33 : ℝ × ℝ) (lst : ℚ → ℝ) : List Sample :=
  transformSeries (fun _ => m33) 41.3 lst times_July12_to_13

/-- Modelled from the spec: the run's data flow
name → coordinates → (coordinates, observer, times) → series, with the
propagation policy that every stage's error surfaces unchanged and no output
is produced after a failure.  The name resolution result and the transform
stage are parameters, since both are external collaborators. -/
def runPipeline (resolve : Except ObsError SkyPosition) (lat lon height : ℚ)
    (transform : SkyPosition → ObserverLocation → Except ObsError (List Sample)) :
    Except ObsError (List Sample) :=
  match resolve with
  | Except.error e => Except.error e
  | Except.ok sky =>
    match buildObserver lat lon height with
    | Except.error e => Except.error e
    | Except.ok obs => transform sky obs

theorem linspace_length (a b : ℚ) (n : ℕ) : (linspace a b n).length = n := by
  unfold linspace
  split_ifs with h0 h1
  · simp [h0]
  · simp [h1]
  · simp

theorem linspace_getElem (a b : ℚ) (n i : ℕ) (h2 : 2 ≤ n) (hi : i < n) :
    (linspace a b n)[i]? = some (a + (b - a) * (i : ℚ) / ((n : ℚ) - 1)) := by
  unfold linspace
  rw [if_neg (by omega), if_neg (by omega), List.getElem?_map, List.getElem?_range hi]
  rfl

theorem timeGrid_length (base a b : ℚ) (n : ℕ) : (timeGrid base a b n).length = n := by
  unfold timeGrid
  rw [List.length_map, linspace_length]

theorem timeGrid_getElem (base a b : ℚ) (n i : ℕ) (h2 : 2 ≤ n) (hi : i < n) :
    (timeGrid base a b n)[i]? =
      some (base + (a + (b - a) * (i : ℚ) / ((n : ℚ) - 1))) := by
  unfold timeGrid
  rw [List.getElem?_map, linspace_getElem a b n i h2 hi]
  rfl

/-- C1 counterexample: a sample whose Sun altitude is exactly −18° is shaded
as twilight, not night, because the notebook's night region is the strict
condition `alt < -18*u.deg`. -/
theorem classify_neg18_twilight :
    classify (-18) = SkyClass.twilight ∧ classify (-18) ≠ SkyClass.night := by
  constructor <;> decide

/-- C1 (amended): every Sun-altitude sample is assigned exactly one of the
three classes, daylight when `alt ≥ 0`, twilight when `-18 ≤ alt < 0`, and
night when `alt < -18`; a sample at exactly −18° is twilight and one at
exactly 0° is daylight. -/
theorem night_day_classification (alt : ℚ) :
    (0 ≤ alt → classify alt = SkyClass.daylight) ∧
    (-18 ≤ alt → alt < 0 → classify alt = SkyClass.twilight) ∧
    (alt < -18 → classify alt = SkyClass.night) ∧
    classify (-18) = SkyClass.twilight ∧ classify 0 = SkyClass.daylight := by
  refine ⟨fun h0 => ?_, fun h1 h2 => ?_, fun h3 => ?_, by decide, by decide⟩
  · unfold classify
    rw [if_neg (by linarith), if_neg (by linarith)]
  · unfold classify
    rw [if_neg (by linarith), if_pos (by linarith)]
  · unfold classify
    rw [if_pos h3]

/-- Witness for `night_day_classification` at altitude 5°. -/
theorem night_day_classification_witness :
    (0 : ℚ) ≤ 5 ∧ classify 5 = SkyClass.daylight :=
  ⟨by decide, (night_day_classification 5).1 (by decide)⟩

/-- C2: the time grid has exactly `n` samples, starts at `base + a`, ends at
`base + b` when `n ≥ 2`, consecutive samples differ by the constant step
`(b - a)/(n − 1)`, and in particular with `n = 100`, `a = −2`, `b = 10` the
first sample is `base − 2` and the last is `base + 10`. -/
theorem timeGrid_spec (base a b : ℚ) (n : ℕ) (hn : 1 ≤ n) :
    (timeGrid base a b n).length = n ∧
    (timeGrid base a b n)[0]? = some (base + a) ∧
    (2 ≤ n → (timeGrid base a b n)[n - 1]? = some (base + b)) ∧
    (∀ i : ℕ, ∀ x y : ℚ, (timeGrid base a b n)[i]? = some x →
      (timeGrid base a b n)[i + 1]? = some y → y - x = (b - a) / ((n : ℚ) - 1)) ∧
    (timeGrid base (-2) 10 100)[0]? = some (base - 2) ∧
    (timeGrid base (-2) 10 100)[99]? = some (base + 10) := by
  refine ⟨timeGrid_length base a b n, ?_, fun h2 => ?_, fun i x y hx hy => ?_, ?_, ?_⟩
  · rcases Nat.lt_or_ge n 2 with h | h
    · have hn1 : n = 1 := by omega
      subst hn1
      simp [timeGrid, linspace]
    · rw [timeGrid_getElem base a b n 0 h (by omega)]
      congr 1
      push_cast
      ring
  · rw [timeGrid_getElem base a b n (n - 1) h2 (by omega)]
    have hcast : ((n - 1 : ℕ) : ℚ) = (n : ℚ) - 1 := by
      push_cast [Nat.cast_sub hn]
      ring
    have hne : (n : ℚ) - 1 ≠ 0 := by
      have : (2 : ℚ) ≤ (n : ℚ) := by exact_mod_cast h2
      intro hc
      nlinarith
    rw [hcast]
    congr 1
    field_simp
  · have hiy : i + 1 < n := by
      have := (List.getElem?_eq_some.mp hy).1
      rwa [timeGrid_length] at this
    have h2 : 2 ≤ n := by omega
    rw [timeGrid_getElem base a b n i h2 (by omega)] at hx
    rw [timeGrid_getElem base a b n (i + 1) h2 hiy] at hy
    have hx2 := Option.some.inj hx
    have hy2 := Option.some.inj hy
    rw [← hx2, ← hy2]
    push_cast
    ring
  · rw [timeGrid_getElem base (-2) 10 100 0 (by norm_num) (by norm_num)]
    congr 1
    push_cast
    ring
  · rw [timeGrid_getElem base (-2) 10 100 99 (by norm_num) (by norm_num)]
    congr 1
    push_cast
    norm_num

/-- Witness for `timeGrid_spec`: a grid with 2 samples has length 2. -/
theorem timeGrid_spec_witness : 1 ≤ 2 ∧ (timeGrid 0 0 1 2).length = 2 :=
  ⟨by norm_num, (timeGrid_spec 0 0 1 2 (by norm_num)).1⟩

/-- C6: the standard-time instant is the local instant minus the declared
offset; local 2012-07-12 23:00 (hour 23) with offset −4 h maps to hour 27,
i.e. 2012-07-13 03:00, the notebook's `midnight` is hour 28, and every sample
of a series is converted with the same fixed offset. -/
theorem toStandard_spec :
    (∀ t u : ℚ, toStandard t u = t - u) ∧
    toStandard 23 utcoffset = 27 ∧
    midnight = 28 ∧
    ∀ (ts : List ℚ) (u : ℚ) (i : ℕ),
      (seriesToStandard ts u)[i]? = (ts[i]?).map (fun t => t - u) := by
  refine ⟨fun t u => rfl, by norm_num [toStandard, utcoffset],
    by norm_num [midnight, toStandard, utcoffset], fun ts u i => ?_⟩
  simp [seriesToStandard, toStandard, List.getElem?_map]

/-- C7: latitude outside [−90, 90] makes the Observer Frame Builder fail with
`InvalidLocationError` and construct no location; in-range latitude and
longitude always construct the location with no failure. -/
theorem buildObserver_validates (lat lon height : ℚ) :
    ((lat < -90 ∨ 90 < lat) →
      buildObserver lat lon height = Except.error ObsError.invalidLocationError) ∧
    (-90 ≤ lat → lat ≤ 90 → -180 ≤ lon → lon ≤ 180 →
      buildObserver lat lon height =
        Except.ok { lat := lat, lon := lon, height := height }) := by
  constructor
  · intro h
    unfold buildObserver
    rw [if_pos h]
  · intro h1 h2 h3 h4
    unfold buildObserver
    rw [if_neg (by push_neg; constructor <;> linarith),
      if_neg (by push_neg; constructor <;> linarith)]

/-- Witness for `buildObserver_validates` at latitude 95°. -/
theorem buildObserver_validates_witness :
    ((95 : ℚ) < -90 ∨ (90 : ℚ) < 95) ∧
    buildObserver 95 (-74) 390 = Except.error ObsError.invalidLocationError :=
  ⟨Or.inr (by norm_num), (buildObserver_validates 95 (-74) 390).1 (Or.inr (by norm_num))⟩

/-- C8: an error in any stage — name resolution, observer construction, or
the horizon transform — is returned unchanged as the run's result, so no
plot data is produced after a failure. -/
theorem runPipeline_propagates (resolve : Except ObsError SkyPosition) (lat lon height : ℚ)
    (transform : SkyPosition → ObserverLocation → Except ObsError (List Sample)) :
    (∀ e, resolve = Except.error e →
      runPipeline resolve lat lon height transform = Except.error e) ∧
    (∀ e sky, resolve = Except.ok sky →
      buildObserver lat lon height = Except.error e →
      runPipeline resolve lat lon height transform = Except.error e) ∧
    (∀ e sky obs, resolve = Except.ok sky →
      buildObserver lat lon height = Except.ok obs →
      transform sky obs = Except.error e →
      runPipeline resolve lat lon height transform = Except.error e) := by
  refine ⟨fun e he => ?_, fun e sky hs hb => ?_, fun e sky obs hs hb ht => ?_⟩
  · subst he
    rfl
  · subst hs
    simp [runPipeline, hb]
  · subst hs
    simp [runPipeline, hb, ht]

/-- Witness for `runPipeline_propagates`: a failed name resolution is the
run's result. -/
theorem runPipeline_propagates_witness :
    (Except.error ObsError.resolutionError : Except ObsError SkyPosition) =
      Except.error ObsError.resolutionError ∧
    runPipeline (Except.error ObsError.resolutionError) 41.3 (-74) 390
      (fun _ _ => Except.ok []) = Except.error ObsError.resolutionError :=
  ⟨rfl, (runPipeline_propagates (Except.error ObsError.resolutionError) 41.3 (-74) 390
    (fun _ _ => Except.ok [])).1 ObsError.resolutionError rfl⟩

/-- C10: the night shading condition implies the sun-below-horizon shading
condition, so for any Sun-altitude series the samples shaded as night are a
subset of those shaded as below-horizon. -/
theorem night_subset_dusk (alts : List ℚ) :
    (∀ a : ℚ, nightShade a = true → duskShade a = true) ∧
    alts.filter nightShade ⊆ alts.filter duskShade := by
  have key : ∀ a : ℚ, nightShade a = true → duskShade a = true := by
    intro a ha
    simp only [nightShade, decide_eq_true_eq] at ha
    simp only [duskShade, decide_eq_true_eq]
    linarith
  refine ⟨key, fun a ha => ?_⟩
  rw [List.mem_filter] at ha ⊢
  exact ⟨ha.1, key a ha.2⟩

/-- Witness for `night_subset_dusk` at altitude −30°. -/
theorem night_subset_dusk_witness : nightShade (-30) = true ∧ duskShade (-30) = true :=
  ⟨by decide, (night_subset_dusk []).1 (-30) (by decide)⟩

theorem wrap360_mem (x : ℝ) : 0 ≤ wrap360 x ∧ wrap360 x < 360 := by
  unfold wrap360
  have h1 := Int.floor_le (x / 360)
  have h2 := Int.lt_floor_add_one (x / 360)
  constructor <;> linarith

theorem degOfRad_arcsin_mem (s : ℝ) :
    -90 ≤ degOfRad (Real.arcsin s) ∧ degOfRad (Real.arcsin s) ≤ 90 := by
  have hπ := Real.pi_pos
  have h1 := Real.arcsin_le_pi_div_two s
  have h2 := Real.neg_pi_div_two_le_arcsin s
  unfold degOfRad
  constructor
  · rw [le_div_iff₀ hπ]
    linarith
  · rw [div_le_iff₀ hπ]
    linarith

/-- C3 counterexample: below the horizon the notebook's airmass is the plain
secant formula continued, e.g. −1 at altitude −90°: a negative value, not a
sentinel/large value (it is not even ≥ 1) and not a flag. -/
theorem secz_below_horizon_not_sentinel :
    secz (-90) = -1 ∧ ¬ (1 ≤ secz (-90)) := by
  have hz : zenithAngle (-90) = Real.pi := by
    unfold zenithAngle radOfDeg
    ring
  have h1 : secz (-90) = -1 := by
    unfold secz
    rw [hz, Real.cos_pi]
    norm_num
  exact ⟨h1, by rw [h1]; norm_num⟩

/-- C3 (amended): the airmass equals `1 / cos(90° − alt)` at every altitude;
for `−90 ≤ alt < 0` the same formula is applied with no sentinel or
below-horizon flag and yields a negative value. -/
theorem secz_spec (alt : ℝ) (h1 : -90 ≤ alt) (h2 : alt < 0) :
    secz alt = 1 / Real.cos ((90 - alt) * Real.pi / 180) ∧ secz alt < 0 := by
  have hπ := Real.pi_pos
  have hlo : Real.pi / 2 < zenithAngle alt := by
    unfold zenithAngle radOfDeg
    nlinarith [mul_pos hπ (by linarith : (0:ℝ) < -alt)]
  have hhi : zenithAngle alt < Real.pi + Real.pi / 2 := by
    unfold zenithAngle radOfDeg
    nlinarith [mul_pos hπ (by linarith : (0:ℝ) < 180 + alt)]
  have hcos : Real.cos (zenithAngle alt) < 0 :=
    Real.cos_neg_of_pi_div_two_lt_of_lt hlo hhi
  refine ⟨rfl, ?_⟩
  unfold secz
  exact one_div_neg.mpr hcos

/-- Witness for `secz_spec` at altitude −45°. -/
theorem secz_spec_witness :
    (-90 : ℝ) ≤ -45 ∧ (-45 : ℝ) < 0 ∧ secz (-45) < 0 :=
  ⟨by norm_num, by norm_num, (secz_spec (-45) (by norm_num) (by norm_num)).2⟩

/-- C4: airmass is strictly decreasing in altitude on (0°, 90°]: for
`0 < alt1 < alt2 ≤ 90`, `secz alt2 < secz alt1`. -/
theorem secz_strictAnti (alt1 alt2 : ℝ) (h0 : 0 < alt1) (h12 : alt1 < alt2)
    (h90 : alt2 ≤ 90) : secz alt2 < secz alt1 := by
  have hπ := Real.pi_pos
  have hz2nonneg : 0 ≤ zenithAngle alt2 := by
    unfold zenithAngle radOfDeg
    exact div_nonneg (mul_nonneg (by linarith) hπ.le) (by norm_num)
  have hz1lt : zenithAngle alt1 < Real.pi / 2 := by
    unfold zenithAngle radOfDeg
    nlinarith [mul_pos hπ h0]
  have hzlt : zenithAngle alt2 < zenithAngle alt1 := by
    unfold zenithAngle radOfDeg
    nlinarith [mul_pos hπ (by linarith : (0:ℝ) < alt2 - alt1)]
  have hcos1pos : 0 < Real.cos (zenithAngle alt1) :=
    Real.cos_pos_of_mem_Ioo ⟨by linarith, hz1lt⟩
  have hcoslt : Real.cos (zenithAngle alt1) < Real.cos (zenithAngle alt2) :=
    Real.cos_lt_cos_of_nonneg_of_le_pi hz2nonneg (by linarith) hzlt
  unfold secz
  exact one_div_lt_one_div_of_lt hcos1pos hcoslt

/-- Witness for `secz_strictAnti` at altitudes 30° and 60°. -/
theorem secz_strictAnti_witness :
    (0 : ℝ) < 30 ∧ (30 : ℝ) < 60 ∧ (60 : ℝ) ≤ 90 ∧ secz 60 < secz 30 :=
  ⟨by norm_num, by norm_num, by norm_num,
    secz_strictAnti 30 60 (by norm_num) (by norm_num) (by norm_num)⟩

/-- C5: every horizon coordinate produced by the transform has altitude in
[−90°, 90°] and azimuth in [0°, 360°), and re-wrapping the azimuth
representation leaves the altitude unchanged. -/
theorem horizonTransform_invariants (lat dec lst ra : ℝ) :
    -90 ≤ (horizonTransform lat dec lst ra).alt ∧
    (horizonTransform lat dec lst ra).alt ≤ 90 ∧
    0 ≤ (horizonTransform lat dec lst ra).az ∧
    (horizonTransform lat dec lst ra).az < 360 ∧
    (wrapAzimuth (horizonTransform lat dec lst ra)).alt =
      (horizonTransform lat dec lst ra).alt :=
  ⟨(degOfRad_arcsin_mem _).1, (degOfRad_arcsin_mem _).2,
    (wrap360_mem _).1, (wrap360_mem _).2, rfl⟩

/-- C9: the Sun, Moon and M33 series of the noon-to-noon computation are all
evaluated over the identical frame — the same latitude and the same ordered
list of 1000 time samples — so the three series have length 1000 and
pointwise equal timestamps. -/
theorem series_aligned (sunPos moonPos : ℚ → ℝ × ℝ) (m33 : ℝ × ℝ) (lst : ℚ → ℝ) :
    (sunaltazs_July12_to_13 sunPos lst).length = 1000 ∧
    (moonaltazs_July12_to_13 moonPos lst).length = 1000 ∧
    (m33altazs_July12_to_13 m33 lst).length = 1000 ∧
    ∀ i : ℕ,
      ((sunaltazs_July12_to_13 sunPos lst)[i]?).map Sample.time =
        times_July12_to_13[i]? ∧
      ((moonaltazs_July12_to_13 moonPos lst)[i]?).map Sample.time =
        times_July12_to_13[i]? ∧
      ((m33altazs_July12_to_13 m33 lst)[i]?).map Sample.time =
        times_July12_to_13[i]? := by
  have hlen : times_July12_to_13.length = 1000 := timeGrid_length midnight (-12) 12 1000
  have key : ∀ (body : ℚ → ℝ × ℝ) (i : ℕ),
      ((transformSeries body 41.3 lst times_July12_to_13)[i]?).map Sample.time =
        times_July12_to_13[i]? := by
    intro body i
    unfold transformSeries
    rw [List.getElem?_map]
    cases h : times_July12_to_13[i]? <;> rfl
  refine ⟨?_, ?_, ?_, fun i => ⟨key sunPos i, key moonPos i, key (fun _ => m33) i⟩⟩ <;>
    simp [sunaltazs_July12_to_13, moonaltazs_July12_to_13, m33altazs_July12_to_13,
      transformSeries, hlen]
